import Mathlib

/-!
# ITMA (Inter-Thread Messaging Architecture): the message envelope and the pipe

A shallow embedding of `src/ITMA.hpp`.

* `Message` is the struct of lines 81-145; its member functions act on a store of
  `Message` objects indexed by object identity, so that `this` and the argument of an
  assignment operator may designate the same object.
* `std::shared_ptr<void>` is an optional address into a `Heap` of allocated objects.
  Two handles designate the same payload instance exactly when the addresses are equal.
* A value of a type `T` is its object representation, `sizeof(T)` bytes.
* A call has one of three results: it returns, it throws, or its behaviour is undefined
  (a null or dangling payload is dereferenced).
-/

namespace ITMA

/-! ## Values, types and the heap -/

abbrev Byte := Fin 256

/-- A type `T` a template is instantiated with: its name and `sizeof(T)`. The template
parameter `int size = sizeof(T)` is an `int`, so a program in which `sizeof(T)` does not
fit an `int` is ill-formed and no wrap-around occurs. -/
structure CType where
  name : String
  sizeof : Nat
deriving DecidableEq, Repr

/-- A value of type `T`: the `sizeof(T)` bytes of its object representation. -/
structure Val (T : CType) where
  bytes : List Byte
  wf : bytes.length = T.sizeof
deriving DecidableEq

abbrev Addr := Nat

/-- The free store: the objects allocated by `new`, in allocation order. The address of an
object is its index. -/
abbrev Heap := List (List Byte)

/-- The expression `new T(object)`: a copy of `object` is stored at an address that was not
in use. -/
def Heap.alloc (h : Heap) (object : List Byte) : Heap × Addr :=
  (h ++ [object], h.length)

/-- The expression `*static_cast<T*>(data.get())`: the first `sizeof(T)` bytes of the object
`data` points to, read as a `T`. There is no result (undefined behaviour) when `data` is
null, dangling, or the object is shorter than `sizeof(T)`. -/
def Heap.deref (h : Heap) (T : CType) (data : Option Addr) : Option (Val T) :=
  match data with
  | none => none
  | some a =>
    match h[a]? with
    | none => none
    | some obj =>
      if hlen : T.sizeof ≤ obj.length then
        some ⟨obj.take T.sizeof, by rw [List.length_take]; exact Nat.min_eq_left hlen⟩
      else none

/-! ## Message (lines 81-145) -/

/-- The struct `Message`: `signature` is the topic, `data` the type-erased payload handle,
`type` a `char`, `size` an `int`. -/
structure Message where
  signature : String
  data : Option Addr
  type : Int
  more : Bool
  size : Int
deriving DecidableEq, Repr

/-- The values of the scalar members a default-constructed `Message` happens to hold:
`Message() {}` does not initialise `type`, `more` and `size`. -/
structure Indet where
  type : Int
  more : Bool
  size : Int
deriving DecidableEq, Repr

/-- The constructor `Message() {}`: empty topic, null payload handle, scalar members
indeterminate. -/
def Message.ctor (u : Indet) : Message :=
  { signature := "", data := none, type := u.type, more := u.more, size := u.size }

/-- A store of `Message` objects, by object identity. -/
abbrev Objs := Nat → Message

def Objs.assign (o : Objs) (i : Nat) (m : Message) : Objs :=
  fun j => if j = i then m else o j

/-- The member `clear()` (lines 137-144), called on the object `self`. -/
def Message.clear (o : Objs) (self : Nat) : Objs :=
  let o := o.assign self { o self with signature := "" }
  let o := o.assign self { o self with data := none }
  let o := o.assign self { o self with type := 0 }
  let o := o.assign self { o self with more := false }
  o.assign self { o self with size := 0 }

/-- The member `copy(Message& source)` (lines 128-135), called on the object `self`: five
member-wise assignments, each reading `source` as it is at that point. -/
def Message.copy (o : Objs) (self source : Nat) : Objs :=
  let o := o.assign self { o self with signature := (o source).signature }
  let o := o.assign self { o self with data := (o source).data }
  let o := o.assign self { o self with type := (o source).type }
  let o := o.assign self { o self with more := (o source).more }
  o.assign self { o self with size := (o source).size }

/-- The move assignment `operator=(Message&& source)` (lines 112-121). -/
def Message.assignMove (o : Objs) (self source : Nat) : Objs :=
  let o := o.assign self { o self with signature := (o source).signature }
  let o := o.assign self { o self with data := (o source).data }
  let o := o.assign self { o self with type := (o source).type }
  let o := o.assign self { o self with more := (o source).more }
  let o := o.assign self { o self with size := (o source).size }
  Message.clear o source

/-- The copy assignment `operator=(Message& source)` (lines 122-126). -/
def Message.assignCopy (o : Objs) (self source : Nat) : Objs :=
  Message.copy o self source

/-- The two objects a constructor taking a `Message` works on: the object under
construction (identity 0, default-initialised members) and its argument (identity 1). -/
def Message.underConstruction (msg : Message) (u : Indet) : Objs :=
  fun j => if j = 0 then Message.ctor u else msg

/-- The move constructor `Message(Message&& msg)` (lines 91-94): the constructed object and
`msg` afterwards. -/
def Message.ctorMove (msg : Message) (u : Indet) : Message × Message :=
  let o := Message.assignMove (Message.underConstruction msg u) 0 1
  (o 0, o 1)

/-- The copy constructor `Message(Message& msg)` (lines 96-99): the constructed object and
`msg` afterwards. -/
def Message.ctorCopy (msg : Message) (u : Indet) : Message × Message :=
  let o := Message.copy (Message.underConstruction msg u) 0 1
  (o 0, o 1)

/-- The copy constructor `Message(const Message& msg)` (lines 101-104), which casts the
constness away and calls `copy`. -/
def Message.ctorCopyConst (msg : Message) (u : Indet) : Message × Message :=
  let o := Message.copy (Message.underConstruction msg u) 0 1
  (o 0, o 1)

/-! ## The unlocked FIFO queue -/

/-- Modelled from the spec: `custom_queue.h` is not among the sources. Section 6 asks for
"a FIFO queue primitive supporting push-back, try-pop-front, and an empty check, with NO
internal locking of its own". The items are listed front first. -/
structure CustomQueue (α : Type) where
  items : List α
deriving DecidableEq, Repr

/-- Modelled from the spec: the queue's "empty check" (`custom_queue.h` is missing). -/
def CustomQueue.empty {α : Type} (q : CustomQueue α) : Bool :=
  q.items.isEmpty

/-- Modelled from the spec: the queue's "push-back" (`custom_queue.h` is missing). -/
def CustomQueue.push {α : Type} (q : CustomQueue α) (x : α) : CustomQueue α :=
  ⟨q.items ++ [x]⟩

/-- Modelled from the spec: the queue's "try-pop-front" (`custom_queue.h` is missing): the
front item and the remaining queue, or nothing when the queue is empty. -/
def CustomQueue.tryPop {α : Type} (q : CustomQueue α) : Option (α × CustomQueue α) :=
  match q.items with
  | [] => none
  | x :: rest => some (x, ⟨rest⟩)

/-! ## pipe (lines 147-242) -/

/-- The class `pipe`: `in_` is the member `in` (incoming messages), `out` the outgoing
messages. The mutex is not modelled: every member function is one atomic step. -/
structure pipe where
  in_ : CustomQueue Message
  out : CustomQueue Message
  subscription : List String
  channel : Int
deriving DecidableEq, Repr

/-! The message type specifiers, the anonymous enum of lines 154-168. -/

def pipe.string : Int := 0
def pipe._bool : Int := 1
def pipe._8bitS : Int := 2
def pipe._16bitS : Int := 3
def pipe._32bitS : Int := 4
def pipe._64bitS : Int := 5
def pipe._8bitU : Int := 6
def pipe._16bitU : Int := 7
def pipe._32bitU : Int := 8
def pipe._64bitU : Int := 9
def pipe._voidptr : Int := 10
def pipe.CustomObject : Int := 11

/-- How a call ends: it returns `rc`, it throws `std::exception(what)`, or its behaviour is
undefined. -/
inductive Completion where
  | returned (rc : Bool)
  | thrown (what : String)
  | undefined
deriving DecidableEq, Repr

/-- The text of the exception thrown on line 224. -/
def typeMismatch : String := "Message data not of the same data type."

/-- Modelled from the spec: the private
`send(std::shared_ptr<void> data, char type, std::string signature, bool more, int size)` is
declared on line 233 and defined outside the sources. Section 4.2: send "encodes `value`
into a Message and pushes it onto the outbound queue; non-blocking, never fails on a full
queue". -/
def pipe.sendErased (p : pipe) (data : Option Addr) (type : Int) (signature : String)
    (more : Bool) (size : Int) : pipe :=
  let msg : Message :=
    { signature := signature, data := data, type := type, more := more, size := size }
  { p with out := p.out.push msg }

/-- Modelled from the spec: the private `recieve(Message & msg)` is declared on line 234 and
defined outside the sources. Section 4.2: "non-blocking pop from the inbound queue; returns
false (no side effect) if empty". The result is the return value, the pipe and `msg`
afterwards. -/
def pipe.recieveMsg (p : pipe) (msg : Message) : Bool × pipe × Message :=
  match p.in_.tryPop with
  | none => (false, p, msg)
  | some (m, rest) => (true, { p with in_ := rest }, m)

/-- The template `send<T, size>(T & object, std::string signature, bool more = false)` of
lines 195-200, with the template argument `size` explicit; `more` is `none` when the
argument is omitted. The result is the pipe and the heap afterwards. -/
def pipe.sendSized (T : CType) (size : Int) (p : pipe) (h : Heap) (object : Val T)
    (signature : String) (more : Option Bool) : pipe × Heap :=
  let (h, pointer) := h.alloc object.bytes
  (p.sendErased (some pointer) pipe.CustomObject signature (more.getD false) size, h)

/-- The generic `send<T>`: `size` takes its default, `sizeof(T)`. -/
def pipe.send (T : CType) (p : pipe) (h : Heap) (object : Val T)
    (signature : String) (more : Option Bool) : pipe × Heap :=
  pipe.sendSized T T.sizeof p h object signature more

/-- What a call of the template `recieve` leaves behind: the pipe, the destination and how
the call ended. -/
structure Recv (T : CType) where
  pip : pipe
  dest : Val T
  result : Completion
deriving DecidableEq

/-- The template `recieve<T, size>(T & dest)` of lines 216-229, with the template argument
`size` explicit. `u` holds the indeterminate scalars of the local `Message msg;`. -/
def pipe.recieveSized (T : CType) (size : Int) (p : pipe) (h : Heap) (dest : Val T)
    (u : Indet) : Recv T :=
  let msg := Message.ctor u
  let (rc, p, msg) := p.recieveMsg msg
  if rc then
    if msg.type ≠ pipe.CustomObject ∨ size ≠ msg.size then
      { pip := p, dest := dest, result := .thrown typeMismatch }
    else
      match h.deref T msg.data with
      | some v => { pip := p, dest := v, result := .returned rc }
      | none => { pip := p, dest := dest, result := .undefined }
  else
    { pip := p, dest := dest, result := .returned rc }

/-- The generic `recieve<T>`: `size` takes its default, `sizeof(T)`. -/
def pipe.recieve (T : CType) (p : pipe) (h : Heap) (dest : Val T) (u : Indet) : Recv T :=
  pipe.recieveSized T T.sizeof p h dest u

/-! ## Overload resolution (lines 181-192, 203-214) -/

/-- The ten types for which `pipe` declares a non-template `send` (lines 181-192) and a
non-template `recieve` (lines 203-214). A call `send(object, signature, more)` or
`recieve(object)` without template arguments, with `object` an lvalue of exactly one of
these types, binds the non-template overload: it ties with the template on conversion rank
and a non-template function is preferred. For every other type the template is the only
exact match. -/
def pipe.overloaded (T : CType) : Bool :=
  ["std::string", "bool", "char", "short", "int", "long",
   "unsigned char", "unsigned short", "unsigned int", "unsigned long"].contains T.name

/-- Modelled from the spec: the tag a non-template overload works with; the overloads are
only declared in the header. Section 4.1: "for primitive scalar kinds, dedicated
constructors tag with the matching enum constant". -/
def pipe.tagOf (T : CType) : Int :=
  if T.name = "std::string" then pipe.string
  else if T.name = "bool" then pipe._bool
  else if T.name = "char" then pipe._8bitS
  else if T.name = "short" then pipe._16bitS
  else if T.name = "int" then pipe._32bitS
  else if T.name = "long" then pipe._64bitS
  else if T.name = "unsigned char" then pipe._8bitU
  else if T.name = "unsigned short" then pipe._16bitU
  else if T.name = "unsigned int" then pipe._32bitU
  else if T.name = "unsigned long" then pipe._64bitU
  else pipe.CustomObject

/-- Modelled from the spec: the non-template `send(T data, std::string signature, bool more)`
of lines 181-192, declared in the header and defined outside the sources. Section 4.1: the
value is erased into the payload and tagged "with the matching enum constant"; section 4.2:
send "encodes `value` into a Message and pushes it onto the outbound queue". Neither the
header nor the spec fixes the size field these overloads record: it is the argument
`size`. -/
def pipe.sendDedicated (T : CType) (p : pipe) (h : Heap) (data : Val T)
    (signature : String) (more : Option Bool) (size : Int) : pipe × Heap :=
  let (h, pointer) := h.alloc data.bytes
  (p.sendErased (some pointer) (pipe.tagOf T) signature (more.getD false) size, h)

/-- Modelled from the spec: the non-template `recieve(T & dest)` of lines 203-214, declared
in the header and defined outside the sources. Section 4.2: a pop that "returns false (no
side effect) if empty"; section 4.1: decoding "checks `typeTag`/`size` against the caller's
requested type; on mismatch it fails with a TypeMismatchError"; section 3: the size is
"meaningful only for custom-object tag", so the tag alone is compared. -/
def pipe.recieveDedicated (T : CType) (p : pipe) (h : Heap) (dest : Val T) (u : Indet) :
    Recv T :=
  let msg := Message.ctor u
  let (rc, p, msg) := p.recieveMsg msg
  if rc then
    if msg.type ≠ pipe.tagOf T then
      { pip := p, dest := dest, result := .thrown typeMismatch }
    else
      match h.deref T msg.data with
      | some v => { pip := p, dest := v, result := .returned rc }
      | none => { pip := p, dest := dest, result := .undefined }
  else
    { pip := p, dest := dest, result := .returned rc }

/-- The call `pip->recieve(object)` of line 72 with `object` of type `T`: the non-template
overload for the ten types that have one, the template `recieve<T>` otherwise. -/
def pipe.recieveCall (T : CType) (p : pipe) (h : Heap) (dest : Val T) (u : Indet) : Recv T :=
  if pipe.overloaded T then pipe.recieveDedicated T p h dest u
  else pipe.recieve T p h dest u

/-! ## Channel (lines 49-79) -/

/-- The class `Channel`, reduced to the pipe its handle `pip` is bound to. A channel whose
handle is null is outside the model, and the back-reference `_ctx` plays no part in `send`
and `recieve`. -/
structure Channel where
  pip : pipe
deriving DecidableEq, Repr

/-- The template `Channel::send` of lines 61-65. The call `pip->send(object, signature,
more)` of line 64 binds the non-template overload for the ten types that have one (`size`
is the size field that overload records) and the template `pipe::send<T>` otherwise. An
omitted `signature` is "" and an omitted `more` is false. -/
def Channel.send (T : CType) (c : Channel) (h : Heap) (object : Val T)
    (signature : Option String) (more : Option Bool) (size : Int) : Channel × Heap :=
  let (p, h) :=
    if pipe.overloaded T then
      pipe.sendDedicated T c.pip h object (signature.getD "") (some (more.getD false)) size
    else
      pipe.send T c.pip h object (signature.getD "") (some (more.getD false))
  ({ c with pip := p }, h)

/-- The loop of `Channel::recieve` (lines 67-73). `obs k` is the bound pipe and the heap as
the `k`-th access of this thread finds them: every evaluation of `pip->in.empty()` (line
70) is one access and the call `pip->recieve(object)` (line 72) is the next one; nothing is
locked between two accesses, so other threads run in between. The loop is entered at access
`k`. `fuel` bounds the number of evaluations of line 70: `none` means the call has not
returned yet. Otherwise the result is the number of times the thread slept and what the one
call of line 72 left behind. -/
def Channel.recieveFrom (T : CType) (obs : Nat → pipe × Heap) (object : Val T) (u : Indet) :
    Nat → Nat → Option (Nat × Recv T)
  | 0, _ => none
  | fuel + 1, k =>
    if (obs k).1.in_.empty then
      Channel.recieveFrom T obs object u fuel (k + 1)
    else
      some (k, pipe.recieveCall T (obs (k + 1)).1 (obs (k + 1)).2 object u)

/-- The template `Channel::recieve` of lines 67-73: the loop from the first access on. -/
def Channel.recieve (T : CType) (obs : Nat → pipe × Heap) (object : Val T) (u : Indet)
    (fuel : Nat) : Option (Nat × Recv T) :=
  Channel.recieveFrom T obs object u fuel 0

/-! ## The router (MContext, lines 34-46) -/

/-- A store with a message at 1 and default-constructed messages elsewhere. -/
def Sample.objs : Objs :=
  fun j => if j = 1 then { signature := "x.1", data := some 0, type := 11, more := true, size := 4 }
    else Message.ctor { type := 7, more := true, size := 9 }

/-- The type `int`, four bytes wide. -/
def Sample.int : CType := { name := "int", sizeof := 4 }

/-- Two class types of the same size, and a wider one. -/
def Sample.Celsius : CType := { name := "Celsius", sizeof := 4 }
def Sample.Meters : CType := { name := "Meters", sizeof := 4 }
def Sample.Wide : CType := { name := "Wide", sizeof := 8 }

def Sample.int42 : Val Sample.int := ⟨[42, 0, 0, 0], rfl⟩
def Sample.int0 : Val Sample.int := ⟨[0, 0, 0, 0], rfl⟩
def Sample.celsius21 : Val Sample.Celsius := ⟨[21, 0, 0, 0], rfl⟩
def Sample.meters0 : Val Sample.Meters := ⟨[0, 0, 0, 0], rfl⟩
def Sample.wide0 : Val Sample.Wide := ⟨[0, 0, 0, 0, 0, 0, 0, 0], rfl⟩

def Sample.indet : Indet := { type := 7, more := true, size := 9 }

/-- A pipe on channel 5 with nothing queued and no subscription. -/
def Sample.idle : pipe :=
  { in_ := ⟨[]⟩, out := ⟨[]⟩, subscription := [], channel := 5 }

/-- The envelope `send<T>` builds for a four-byte `T` and topic "t" on an empty heap. -/
def Sample.envelope : Message :=
  { signature := "t", data := some 0, type := 11, more := false, size := 4 }

/-- A message tagged `_32bitS`. -/
def Sample.tagged32 : Message :=
  { signature := "t", data := some 0, type := 4, more := false, size := 4 }

/-- The pipe `Sample.idle` with `m` at the head of its inbound queue. -/
def Sample.holding (m : Message) : pipe :=
  { Sample.idle with in_ := ⟨[m]⟩ }

/-- The envelope `send<Celsius, 8>` builds: the size field says 8, the payload has the four
bytes of a `Celsius`. -/
def Sample.oversized : Message :=
  { signature := "t", data := some 0, type := 11, more := false, size := 8 }

/-- C5: a move assignment whose source is another object than its destination, and a move
construction, give the destination the topic, payload, type tag, more flag and size the
source had, and leave the source with topic "", no payload, type tag 0, more false and
size 0. -/
theorem Message.move_transfers_and_resets (o : Objs) (self source : Nat) (msg : Message)
    (u : Indet) (hne : self ≠ source) :
    Message.assignMove o self source self = o source ∧
    Message.assignMove o self source source
      = { signature := "", data := none, type := 0, more := false, size := 0 } ∧
    (Message.ctorMove msg u).1 = msg ∧
    (Message.ctorMove msg u).2
      = { signature := "", data := none, type := 0, more := false, size := 0 } := by
  have hne2 : source ≠ self := fun e => hne e.symm
  refine ⟨?_, ?_, ?_, ?_⟩
  · simp [Message.assignMove, Message.clear, Objs.assign, hne, hne2]
  · simp [Message.assignMove, Message.clear, Objs.assign, hne, hne2]
  · simp [Message.ctorMove, Message.assignMove, Message.clear, Objs.assign,
      Message.underConstruction]
  · simp [Message.ctorMove, Message.assignMove, Message.clear, Objs.assign,
      Message.underConstruction]

theorem Message.move_transfers_and_resets_witness :
    (0 : Nat) ≠ 1 ∧
    Message.assignMove Sample.objs 0 1 0
      = { signature := "x.1", data := some 0, type := 11, more := true, size := 4 } ∧
    Message.assignMove Sample.objs 0 1 1
      = { signature := "", data := none, type := 0, more := false, size := 0 } :=
  ⟨by decide,
   (Message.move_transfers_and_resets Sample.objs 0 1 (Sample.objs 1)
      { type := 7, more := true, size := 9 } (by decide)).1,
   (Message.move_transfers_and_resets Sample.objs 0 1 (Sample.objs 1)
      { type := 7, more := true, size := 9 } (by decide)).2.1⟩

/-- C6: a copy assignment and both copy constructors give the destination the topic, type
tag, more flag and size of the source and the very same payload handle (the payload is
shared, no object is allocated), and leave the source as it was. -/
theorem Message.copy_shares_payload (o : Objs) (self source : Nat) (msg : Message)
    (u : Indet) :
    (Message.assignCopy o self source self = o source ∧
      (Message.assignCopy o self source self).data = (o source).data ∧
      Message.assignCopy o self source source = o source) ∧
    ((Message.ctorCopy msg u).1 = msg ∧ (Message.ctorCopy msg u).1.data = msg.data ∧
      (Message.ctorCopy msg u).2 = msg) ∧
    ((Message.ctorCopyConst msg u).1 = msg ∧ (Message.ctorCopyConst msg u).1.data = msg.data ∧
      (Message.ctorCopyConst msg u).2 = msg) := by
  have hself : Message.assignCopy o self source self = o source := by
    by_cases h : source = self
    · subst h; simp [Message.assignCopy, Message.copy, Objs.assign]
    · simp [Message.assignCopy, Message.copy, Objs.assign, h]
  have hsrc : Message.assignCopy o self source source = o source := by
    by_cases h : source = self
    · subst h; simp [Message.assignCopy, Message.copy, Objs.assign]
    · simp [Message.assignCopy, Message.copy, Objs.assign, h]
  have hc : (Message.ctorCopy msg u) = (msg, msg) := by
    simp [Message.ctorCopy, Message.copy, Objs.assign, Message.underConstruction]
  have hcc : (Message.ctorCopyConst msg u) = (msg, msg) := by
    simp [Message.ctorCopyConst, Message.copy, Objs.assign, Message.underConstruction]
  refine ⟨⟨hself, by rw [hself], hsrc⟩, ⟨?_, ?_, ?_⟩, ⟨?_, ?_, ?_⟩⟩ <;> simp [hc, hcc]

/-! ## pipe: the generic send and recieve -/

theorem Heap.deref_of_get (h : Heap) (T : CType) (a : Addr) (v : Val T)
    (hget : h[a]? = some v.bytes) : h.deref T (some a) = some v := by
  have hle : T.sizeof ≤ v.bytes.length := by rw [v.wf]
  have htake : List.take T.sizeof v.bytes = v.bytes := by
    rw [← v.wf]; exact List.take_length v.bytes
  cases v with
  | mk bytes wf =>
    simp only at hget hle htake
    simp [Heap.deref, hget, hle, htake]

theorem Heap.get_past (h ext : Heap) (object : List Byte) :
    (h ++ [object] ++ ext)[h.length]? = some object := by
  induction h with
  | nil => simp
  | cons x xs ih => simpa using ih

theorem pipe.recieve_of_empty (T : CType) (p : pipe) (h : Heap) (dest : Val T) (u : Indet)
    (he : p.in_.items = []) :
    pipe.recieve T p h dest u = { pip := p, dest := dest, result := .returned false } := by
  simp [pipe.recieve, pipe.recieveSized, pipe.recieveMsg, CustomQueue.tryPop, he]

theorem pipe.recieve_of_mismatch (T : CType) (p : pipe) (h : Heap) (dest : Val T) (u : Indet)
    (m : Message) (rest : List Message) (hq : p.in_.items = m :: rest)
    (hbad : m.type ≠ pipe.CustomObject ∨ m.size ≠ T.sizeof) :
    pipe.recieve T p h dest u
      = { pip := { p with in_ := ⟨rest⟩ }, dest := dest, result := .thrown typeMismatch } := by
  have hbad2 : m.type ≠ pipe.CustomObject ∨ (T.sizeof : Int) ≠ m.size := by
    rcases hbad with h1 | h2
    · exact Or.inl h1
    · exact Or.inr (fun e => h2 e.symm)
  simp only [pipe.recieve, pipe.recieveSized, pipe.recieveMsg, CustomQueue.tryPop, hq]
  simp [hbad2]

theorem pipe.recieve_of_match (T : CType) (p : pipe) (h : Heap) (dest : Val T) (u : Indet)
    (m : Message) (rest : List Message) (hq : p.in_.items = m :: rest)
    (htag : m.type = pipe.CustomObject) (hsize : m.size = T.sizeof) :
    pipe.recieve T p h dest u
      = match h.deref T m.data with
        | some v => { pip := { p with in_ := ⟨rest⟩ }, dest := v, result := .returned true }
        | none => { pip := { p with in_ := ⟨rest⟩ }, dest := dest, result := .undefined } := by
  simp only [pipe.recieve, pipe.recieveSized, pipe.recieveMsg, CustomQueue.tryPop, hq]
  simp [htag, hsize]

theorem pipe.send_eq (T : CType) (p : pipe) (h : Heap) (v : Val T) (s : String)
    (m : Option Bool) :
    pipe.send T p h v s m
      = ({ p with out := ⟨p.out.items ++
            [{ signature := s, data := some h.length, type := pipe.CustomObject,
               more := m.getD false, size := T.sizeof }]⟩ },
         h ++ [v.bytes]) := by
  simp [pipe.send, pipe.sendSized, pipe.sendErased, Heap.alloc, CustomQueue.push]

theorem pipe.sendDedicated_eq (T : CType) (p : pipe) (h : Heap) (v : Val T) (s : String)
    (m : Option Bool) (size : Int) :
    pipe.sendDedicated T p h v s m size
      = ({ p with out := ⟨p.out.items ++
            [{ signature := s, data := some h.length, type := pipe.tagOf T,
               more := m.getD false, size := size }]⟩ },
         h ++ [v.bytes]) := by
  simp [pipe.sendDedicated, pipe.sendErased, Heap.alloc, CustomQueue.push]

/-- C4: the generic `send<T>(v, s, m)` appends exactly one envelope to the outbound queue:
its tag is `CustomObject`, its size `sizeof(T)`, its topic `s`, its more flag `m` (false when
omitted), and its payload is an object allocated by this call (the address was not in use)
that reads back as `v`; nothing else of the pipe changes. `Channel::send<T>` hands the same
value, topic and flag, with topic "" and more false when omitted, to the `send` of the bound
pipe that line 64 binds: the template `send<T>` for a type without a non-template overload,
which queues the envelope above, and the non-template overload for the ten types that have
one, which queues an envelope with that topic, that flag and a payload that reads back as
`v`. -/
theorem pipe.send_encodes_one_envelope (T : CType) (p : pipe) (c : Channel) (h : Heap)
    (v : Val T) (s : String) (m : Option Bool) (cs : Option String) (cm : Option Bool)
    (size : Int) :
    ((pipe.send T p h v s m).1.out.items
        = p.out.items ++
          [{ signature := s, data := some h.length, type := pipe.CustomObject,
             more := m.getD false, size := T.sizeof }] ∧
      (pipe.send T p h v s none).1.out.items
        = p.out.items ++
          [{ signature := s, data := some h.length, type := pipe.CustomObject,
             more := false, size := T.sizeof }] ∧
      (pipe.send T p h v s m).1.in_ = p.in_ ∧
      (pipe.send T p h v s m).1.subscription = p.subscription ∧
      (pipe.send T p h v s m).1.channel = p.channel ∧
      h[h.length]? = none ∧
      (pipe.send T p h v s m).2 = h ++ [v.bytes] ∧
      (pipe.send T p h v s m).2.deref T (some h.length) = some v) ∧
    (pipe.overloaded T = false →
      Channel.send T c h v cs cm size
        = ({ pip := (pipe.send T c.pip h v (cs.getD "") (some (cm.getD false))).1 },
           (pipe.send T c.pip h v (cs.getD "") (some (cm.getD false))).2) ∧
      (Channel.send T c h v cs cm size).1.pip.out.items
        = c.pip.out.items ++
          [{ signature := cs.getD "", data := some h.length, type := pipe.CustomObject,
             more := cm.getD false, size := T.sizeof }] ∧
      (Channel.send T c h v none none size).1.pip.out.items
        = c.pip.out.items ++
          [{ signature := "", data := some h.length, type := pipe.CustomObject,
             more := false, size := T.sizeof }]) ∧
    (pipe.overloaded T = true →
      Channel.send T c h v cs cm size
        = ({ pip := (pipe.sendDedicated T c.pip h v (cs.getD "") (some (cm.getD false))
                      size).1 },
           (pipe.sendDedicated T c.pip h v (cs.getD "") (some (cm.getD false)) size).2) ∧
      (Channel.send T c h v cs cm size).1.pip.out.items
        = c.pip.out.items ++
          [{ signature := cs.getD "", data := some h.length, type := pipe.tagOf T,
             more := cm.getD false, size := size }] ∧
      (Channel.send T c h v none none size).1.pip.out.items
        = c.pip.out.items ++
          [{ signature := "", data := some h.length, type := pipe.tagOf T,
             more := false, size := size }] ∧
      (Channel.send T c h v cs cm size).2.deref T (some h.length) = some v) := by
  refine ⟨⟨?_, ?_, ?_, ?_, ?_, ?_, ?_, ?_⟩, ?_, ?_⟩
  · simp [pipe.send_eq]
  · simp [pipe.send_eq]
  · simp [pipe.send_eq]
  · simp [pipe.send_eq]
  · simp [pipe.send_eq]
  · simp
  · simp [pipe.send_eq]
  · rw [pipe.send_eq]
    exact Heap.deref_of_get _ T h.length v (by simp)
  · intro hov
    refine ⟨?_, ?_, ?_⟩
    · simp [Channel.send, hov]
    · simp [Channel.send, hov, pipe.send_eq]
    · simp [Channel.send, hov, pipe.send_eq]
  · intro hov
    refine ⟨?_, ?_, ?_, ?_⟩
    · simp [Channel.send, hov]
    · simp [Channel.send, hov, pipe.sendDedicated_eq]
    · simp [Channel.send, hov, pipe.sendDedicated_eq]
    · have hheap : (Channel.send T c h v cs cm size).2 = h ++ [v.bytes] := by
        simp [Channel.send, hov, pipe.sendDedicated_eq]
      rw [hheap]
      exact Heap.deref_of_get _ T h.length v (by simp)

theorem pipe.send_encodes_one_envelope_witness :
    pipe.overloaded Sample.Celsius = false ∧
    (Channel.send Sample.Celsius { pip := Sample.idle } [] Sample.celsius21 none none 0).1.pip.out.items
      = Sample.idle.out.items ++
        [{ signature := "", data := some 0, type := pipe.CustomObject, more := false,
           size := 4 }] ∧
    pipe.overloaded Sample.int = true ∧
    (Channel.send Sample.int { pip := Sample.idle } [] Sample.int42 (some "t") (some true) 0).1.pip.out.items
      = Sample.idle.out.items ++
        [{ signature := "t", data := some 0, type := pipe._32bitS, more := true,
           size := 0 }] :=
  ⟨by decide,
   ((pipe.send_encodes_one_envelope Sample.Celsius Sample.idle { pip := Sample.idle } []
      Sample.celsius21 "" none none none 0).2.1 (by decide)).2.2,
   by decide,
   ((pipe.send_encodes_one_envelope Sample.int Sample.idle { pip := Sample.idle } []
      Sample.int42 "" none (some "t") (some true) 0).2.2 (by decide)).2.1⟩

/-- C1, as amended: the generic `recieve<T>(dest)` throws the type-mismatch exception
exactly when a message was popped from the inbound queue whose tag is not `CustomObject` or
whose size differs from `sizeof(T)`, and it throws nothing else; when a message was popped,
it does not throw, and the payload handle of the message designates an object of at least
`sizeof(T)` bytes, which read as a `T` is `v`, the call returns true and `dest` is `v`. -/
theorem pipe.recieve_throws_iff_mismatch (T : CType) (p : pipe) (h : Heap) (dest : Val T)
    (u : Indet) :
    ((pipe.recieve T p h dest u).result = .thrown typeMismatch ↔
      ∃ m rest, p.in_.items = m :: rest ∧
        (m.type ≠ pipe.CustomObject ∨ m.size ≠ T.sizeof)) ∧
    (∀ what, (pipe.recieve T p h dest u).result = .thrown what → what = typeMismatch) ∧
    (∀ m rest v, p.in_.items = m :: rest →
      (pipe.recieve T p h dest u).result ≠ .thrown typeMismatch →
      h.deref T m.data = some v →
      (pipe.recieve T p h dest u).pip.in_.items = rest ∧
      (pipe.recieve T p h dest u).result = .returned true ∧
      (pipe.recieve T p h dest u).dest = v) := by
  cases hq : p.in_.items with
  | nil =>
    rw [pipe.recieve_of_empty T p h dest u hq]
    simp
  | cons m rest =>
    by_cases hbad : m.type ≠ pipe.CustomObject ∨ m.size ≠ T.sizeof
    · rw [pipe.recieve_of_mismatch T p h dest u m rest hq hbad]
      refine ⟨?_, ?_, ?_⟩
      · simp [hbad]
      · intro what hw
        simpa using hw.symm
      · intro m' rest' v _ hno
        exact absurd rfl hno
    · have htag : m.type = pipe.CustomObject := by
        by_contra hc; exact hbad (Or.inl hc)
      have hsize : m.size = T.sizeof := by
        by_contra hc; exact hbad (Or.inr hc)
      rw [pipe.recieve_of_match T p h dest u m rest hq htag hsize]
      refine ⟨?_, ?_, ?_⟩
      · cases h.deref T m.data <;> simp [htag, hsize]
      · intro what hw
        cases hd : h.deref T m.data <;> simp [hd] at hw
      · intro m' rest' v hcons _ hv
        have hm : m = m' := by
          have := List.cons.inj hcons
          exact this.1
        have hr : rest = rest' := (List.cons.inj hcons).2
        subst hm
        subst hr
        simp [hv]

/-- C8: on an empty inbound queue the generic `recieve<T>(dest)` returns false, throws
nothing, and leaves `dest` and the whole pipe, its empty inbound queue included, as they
were. -/
theorem pipe.recieve_empty_no_effect (T : CType) (p : pipe) (h : Heap) (d : Val T) (u : Indet)
    (hempty : p.in_.items = []) :
    (pipe.recieve T p h d u).result = .returned false ∧
    (pipe.recieve T p h d u).dest = d ∧
    (pipe.recieve T p h d u).pip.in_.items = [] ∧
    (pipe.recieve T p h d u).pip = p := by
  rw [pipe.recieve_of_empty T p h d u hempty]
  simp [hempty]

/-- C10: when the head of the inbound queue does not match `T` (its tag is not
`CustomObject` or its size differs from `sizeof(T)`), the generic `recieve<T>(dest)` throws
the type-mismatch exception and leaves `dest` as it was, but the head message is gone from
the inbound queue: the queue is one shorter, and a later `recieve` of any type sees only
the messages that were behind it. -/
theorem pipe.recieve_mismatch_consumes (T : CType) (p : pipe) (h : Heap) (d : Val T)
    (u : Indet) (m : Message) (rest : List Message) (hq : p.in_.items = m :: rest)
    (hbad : m.type ≠ pipe.CustomObject ∨ m.size ≠ T.sizeof) :
    (pipe.recieve T p h d u).result = .thrown typeMismatch ∧
    (pipe.recieve T p h d u).dest = d ∧
    (pipe.recieve T p h d u).pip.in_.items = rest ∧
    (pipe.recieve T p h d u).pip.in_.items.length + 1 = p.in_.items.length ∧
    (pipe.recieve T p h d u).pip = { p with in_ := ⟨rest⟩ } ∧
    (rest = [] → ∀ (T2 : CType) (h2 : Heap) (d2 : Val T2) (u2 : Indet),
      (pipe.recieve T2 (pipe.recieve T p h d u).pip h2 d2 u2).result = .returned false) := by
  rw [pipe.recieve_of_mismatch T p h d u m rest hq hbad]
  refine ⟨rfl, rfl, rfl, ?_, rfl, ?_⟩
  · simp [hq]
  · intro hr T2 h2 d2 u2
    rw [pipe.recieve_of_empty T2 _ h2 d2 u2 (by simpa using hr)]

theorem pipe.recieve_throws_iff_mismatch_witness :
    (Sample.holding Sample.envelope).in_.items
      = [Sample.envelope] ∧
    (pipe.recieve Sample.int
      (Sample.holding Sample.envelope)
      [[42, 0, 0, 0]] Sample.int0 Sample.indet).result = .returned true ∧
    (pipe.recieve Sample.int
      (Sample.holding Sample.envelope)
      [[42, 0, 0, 0]] Sample.int0 Sample.indet).dest = Sample.int42 :=
  ⟨by decide,
   ((pipe.recieve_throws_iff_mismatch Sample.int
      (Sample.holding Sample.envelope)
      [[42, 0, 0, 0]] Sample.int0 Sample.indet).2.2 Sample.envelope [] Sample.int42
        (by decide) (by decide) (by decide)).2⟩

theorem pipe.recieve_empty_no_effect_witness :
    Sample.idle.in_.items = [] ∧
    (pipe.recieve Sample.int Sample.idle [[42, 0, 0, 0]] Sample.int42 Sample.indet).result
      = .returned false ∧
    (pipe.recieve Sample.int Sample.idle [[42, 0, 0, 0]] Sample.int42 Sample.indet).dest
      = Sample.int42 :=
  ⟨by decide,
   (pipe.recieve_empty_no_effect Sample.int Sample.idle [[42, 0, 0, 0]] Sample.int42
      Sample.indet (by decide)).1,
   (pipe.recieve_empty_no_effect Sample.int Sample.idle [[42, 0, 0, 0]] Sample.int42
      Sample.indet (by decide)).2.1⟩

theorem pipe.recieve_mismatch_consumes_witness :
    (Sample.holding Sample.tagged32).in_.items
      = [Sample.tagged32] ∧
    (Sample.tagged32.type ≠ pipe.CustomObject ∨ Sample.tagged32.size ≠ Sample.int.sizeof) ∧
    (pipe.recieve Sample.int
      (Sample.holding Sample.tagged32)
      [[42, 0, 0, 0]] Sample.int0 Sample.indet).result = .thrown typeMismatch ∧
    (pipe.recieve Sample.int
      (Sample.holding Sample.tagged32)
      [[42, 0, 0, 0]] Sample.int0 Sample.indet).pip.in_.items = [] :=
  ⟨by decide, by decide,
   (pipe.recieve_mismatch_consumes Sample.int
      (Sample.holding Sample.tagged32)
      [[42, 0, 0, 0]] Sample.int0 Sample.indet Sample.tagged32 [] (by decide) (by decide)).1,
   (pipe.recieve_mismatch_consumes Sample.int
      (Sample.holding Sample.tagged32)
      [[42, 0, 0, 0]] Sample.int0 Sample.indet Sample.tagged32 [] (by decide) (by decide)).2.2.1⟩

/-- The envelope `send<T>` appends has the tag and the size of `T` and points to a copy of
the value sent. -/
theorem pipe.send_envelope (T : CType) (p : pipe) (h : Heap) (v : Val T) (s : String)
    (m : Option Bool) (e : Message)
    (hsent : (pipe.send T p h v s m).1.out.items = p.out.items ++ [e]) :
    e = { signature := s, data := some h.length, type := pipe.CustomObject,
          more := m.getD false, size := T.sizeof } := by
  rw [pipe.send_eq] at hsent
  simp only at hsent
  have := List.append_cancel_left hsent
  simpa using this.symm

/-- C3: round trip. `send<T>(v, topic, more)` appends one envelope `e` to the outbound
queue, and whenever `e` is at the head of a pipe's inbound queue, `recieve<T>(dest)` decodes
it without an exception: the call returns true, `dest` is `v` and the message is popped.
`ext` holds the objects allocated after the send. -/
theorem pipe.send_recieve_round_trip (T : CType) (p : pipe) (h : Heap) (v : Val T)
    (s : String) (m : Option Bool) :
    ∃ e, (pipe.send T p h v s m).1.out.items = p.out.items ++ [e] ∧
      ∀ (q : pipe) (rest : List Message) (ext : Heap) (d : Val T) (u : Indet),
        q.in_.items = e :: rest →
        (pipe.recieve T q ((pipe.send T p h v s m).2 ++ ext) d u).result = .returned true ∧
        (pipe.recieve T q ((pipe.send T p h v s m).2 ++ ext) d u).dest = v ∧
        (pipe.recieve T q ((pipe.send T p h v s m).2 ++ ext) d u).pip.in_.items = rest := by
  refine ⟨{ signature := s, data := some h.length, type := pipe.CustomObject,
            more := m.getD false, size := T.sizeof }, by simp [pipe.send_eq], ?_⟩
  intro q rest ext d u hhead
  have hd : ((pipe.send T p h v s m).2 ++ ext).deref T (some h.length) = some v := by
    rw [pipe.send_eq]
    exact Heap.deref_of_get _ T h.length v (Heap.get_past h ext v.bytes)
  rw [pipe.recieve_of_match T q _ d u _ rest hhead rfl rfl]
  simp [hd]

theorem pipe.send_recieve_round_trip_witness :
    (∃ e, (pipe.send Sample.int Sample.idle [] Sample.int42 "t" none).1.out.items
        = Sample.idle.out.items ++ [e] ∧
      ∀ (q : pipe) (rest : List Message) (ext : Heap) (d : Val Sample.int) (u : Indet),
        q.in_.items = e :: rest →
        (pipe.recieve Sample.int q
          ((pipe.send Sample.int Sample.idle [] Sample.int42 "t" none).2 ++ ext) d u).result
          = .returned true ∧
        (pipe.recieve Sample.int q
          ((pipe.send Sample.int Sample.idle [] Sample.int42 "t" none).2 ++ ext) d u).dest
          = Sample.int42 ∧
        (pipe.recieve Sample.int q
          ((pipe.send Sample.int Sample.idle [] Sample.int42 "t" none).2 ++ ext) d u).pip.in_.items
          = rest) ∧
    (pipe.send Sample.int Sample.idle [] Sample.int42 "t" none).1.out.items
      = [Sample.envelope] ∧
    (pipe.recieve Sample.int (Sample.holding Sample.envelope)
      (pipe.send Sample.int Sample.idle [] Sample.int42 "t" none).2
      Sample.int0 Sample.indet).result = .returned true ∧
    (pipe.recieve Sample.int (Sample.holding Sample.envelope)
      (pipe.send Sample.int Sample.idle [] Sample.int42 "t" none).2
      Sample.int0 Sample.indet).dest = Sample.int42 :=
  ⟨pipe.send_recieve_round_trip Sample.int Sample.idle [] Sample.int42 "t" none,
   by decide, by decide, by decide⟩

/-- C2, as amended: when `sizeof(T)` and `sizeof(U)` differ, the envelope `send<T>(v)`
appends, decoded with the generic `recieve<U>`, throws the type-mismatch exception and the
destination keeps its value. -/
theorem pipe.recieve_other_size_throws (T U : CType) (p q : pipe) (h ext : Heap) (v : Val T)
    (d : Val U) (s : String) (m : Option Bool) (u : Indet) (e : Message)
    (rest : List Message) (hsize : T.sizeof ≠ U.sizeof)
    (hsent : (pipe.send T p h v s m).1.out.items = p.out.items ++ [e])
    (hhead : q.in_.items = e :: rest) :
    (pipe.recieve U q ((pipe.send T p h v s m).2 ++ ext) d u).result = .thrown typeMismatch ∧
    (pipe.recieve U q ((pipe.send T p h v s m).2 ++ ext) d u).dest = d := by
  have he := pipe.send_envelope T p h v s m e hsent
  have hbad : e.type ≠ pipe.CustomObject ∨ e.size ≠ U.sizeof := by
    right
    rw [he]
    simpa using hsize
  rw [pipe.recieve_of_mismatch U q _ d u e rest hhead hbad]
  exact ⟨rfl, rfl⟩

theorem pipe.recieve_other_size_throws_witness :
    Sample.Celsius.sizeof ≠ Sample.Wide.sizeof ∧
    (pipe.recieve Sample.Wide
      (Sample.holding Sample.envelope)
      ((pipe.send Sample.Celsius Sample.idle [] Sample.celsius21 "t" none).2 ++ [])
      Sample.wide0 Sample.indet).result = .thrown typeMismatch ∧
    (pipe.recieve Sample.Wide
      (Sample.holding Sample.envelope)
      ((pipe.send Sample.Celsius Sample.idle [] Sample.celsius21 "t" none).2 ++ [])
      Sample.wide0 Sample.indet).dest = Sample.wide0 :=
  ⟨by decide,
   pipe.recieve_other_size_throws Sample.Celsius Sample.Wide Sample.idle
      (Sample.holding Sample.envelope)
      [] [] Sample.celsius21 Sample.wide0 "t" none Sample.indet Sample.envelope [] (by decide) (by decide)
      (by decide)⟩

/-- C2 fails as stated: `Celsius` and `Meters` are distinct types of the same size, and the
envelope `send<Celsius>` appends for the value 21 is decoded by `recieve<Meters>` without an
exception: the call returns true and stores the bytes of the `Celsius` into the `Meters`
destination, which held 0. -/
theorem pipe.recieve_same_size_reinterprets :
    Sample.Celsius ≠ Sample.Meters ∧
    (pipe.send Sample.Celsius Sample.idle [] Sample.celsius21 "t" none).1.out.items
      = Sample.idle.out.items ++
        [Sample.envelope] ∧
    (pipe.recieve Sample.Meters
      (Sample.holding Sample.envelope)
      (pipe.send Sample.Celsius Sample.idle [] Sample.celsius21 "t" none).2
      Sample.meters0 Sample.indet).result ≠ .thrown typeMismatch ∧
    (pipe.recieve Sample.Meters
      (Sample.holding Sample.envelope)
      (pipe.send Sample.Celsius Sample.idle [] Sample.celsius21 "t" none).2
      Sample.meters0 Sample.indet).result = .returned true ∧
    (pipe.recieve Sample.Meters
      (Sample.holding Sample.envelope)
      (pipe.send Sample.Celsius Sample.idle [] Sample.celsius21 "t" none).2
      Sample.meters0 Sample.indet).dest.bytes = [21, 0, 0, 0] ∧
    Sample.meters0.bytes ≠ [21, 0, 0, 0] := by
  decide

/-- C1 fails as stated: `send<Celsius, 8>` queues an envelope whose size field is 8 for a
payload of four bytes. With that envelope at the head of the inbound queue, `recieve<Wide>`
pops it and does not throw (the tag is `CustomObject` and the size is `sizeof(Wide)`), but it
does not return true either: it reads eight bytes through a handle to four, which has no
defined result. -/
theorem pipe.recieve_short_payload_undefined :
    (pipe.sendSized Sample.Celsius 8 Sample.idle [] Sample.celsius21 "t" none).1.out.items
      = [Sample.oversized] ∧
    (pipe.sendSized Sample.Celsius 8 Sample.idle [] Sample.celsius21 "t" none).2
      = [[21, 0, 0, 0]] ∧
    (Sample.holding Sample.oversized).in_.items = [Sample.oversized] ∧
    (pipe.recieve Sample.Wide (Sample.holding Sample.oversized) [[21, 0, 0, 0]]
      Sample.wide0 Sample.indet).pip.in_.items = [] ∧
    (pipe.recieve Sample.Wide (Sample.holding Sample.oversized) [[21, 0, 0, 0]]
      Sample.wide0 Sample.indet).result ≠ .thrown typeMismatch ∧
    (pipe.recieve Sample.Wide (Sample.holding Sample.oversized) [[21, 0, 0, 0]]
      Sample.wide0 Sample.indet).result ≠ .returned true ∧
    (pipe.recieve Sample.Wide (Sample.holding Sample.oversized) [[21, 0, 0, 0]]
      Sample.wide0 Sample.indet).result = .undefined := by
  decide

/-! ## Channel: the blocking recieve -/

end ITMA
